import Mathlib

/-!
# State representation of `modulo`: a verification development

Shallow embedding of the value types of the `state_representation` library
(`State`, `SpatialState`, the joint-space family) and of
`modulo_components::LifecycleComponent::add_output`, followed by the
properties established about them.

Conventions of the embedding:

* `std::string` is `String`, `bool` is `Bool`;
* a C++ member function that mutates `*this` is a function returning the new
  value of the object;
* a state operation that may throw returns `Except Exception _`; `add_output`
  returns the way the call ends (`Except Thrown Unit`) and the component after it;
* `double` values are exact rationals (`ℚ`), `Eigen::VectorXd` and
  `Eigen::ArrayXd` are `List ℚ`;
* `std::chrono::milliseconds` is its signed tick count (`Int`).
-/

namespace StateRepresentation

/-! ## State and SpatialState -/

/-- Modelled from the spec: the header `state_representation/State.hpp` that
`SpatialState.hpp` includes is absent; the base abstraction is "a type tag, an
owner name, and an empty flag. No numeric payload". The type tag is a string,
as the `SpatialState` constructors pass it (`const std::string& type`). -/
structure State where
  type : String
  name : String
  empty : Bool
deriving DecidableEq, Repr

/-- Modelled from the spec: `State::get_name`, declared in the absent
`State.hpp`; the accessor of `name`. -/
def State.get_name (s : State) : String := s.name

/-- Modelled from the spec: `State::get_type`, declared in the absent
`State.hpp`; the accessor of `type`. -/
def State.get_type (s : State) : String := s.type

/-- Modelled from the spec: `State::is_empty`, declared in the absent
`State.hpp`; the accessor of `empty`. -/
def State.is_empty (s : State) : Bool := s.empty

/-- The class `SpatialState : public State` with its one private member
`reference_frame`. -/
structure SpatialState extends State where
  reference_frame : String
deriving DecidableEq, Repr

/-- `SpatialState::get_reference_frame`: returns `this->reference_frame`. -/
def SpatialState.get_reference_frame (s : SpatialState) : String :=
  s.reference_frame

/-- `SpatialState::set_reference_frame`: the single assignment
`this->reference_frame = reference`. -/
def SpatialState.set_reference_frame (s : SpatialState) (reference : String) : SpatialState :=
  { s with reference_frame := reference }

/-- `SpatialState::is_compatible`: the conjunction of the equality of the
names and the equality of the reference frames (the argument is seen as a
`SpatialState` through the `static_cast` of the source). -/
def SpatialState.is_compatible (self state : SpatialState) : Bool :=
  let compatible := (self.get_name == state.get_name) &&
    (self.reference_frame == state.reference_frame)
  compatible

/-- An object of a class derived from `SpatialState`: the `SpatialState`
subobject together with the members the derived class adds (its numeric
payload), of an arbitrary type `P`. -/
structure SpatialObject (P : Type) where
  spatial : SpatialState
  payload : P

/-- `SpatialState::set_reference_frame` called on an object of a derived
class: the body of the base class runs on the `SpatialState` subobject. -/
def SpatialObject.set_reference_frame {P : Type} (o : SpatialObject P) (reference : String) :
    SpatialObject P :=
  { o with spatial := o.spatial.set_reference_frame reference }

/-- Modelled from the spec: the constructor `SpatialState(type, name,
reference_frame, empty)`, declared in the header with its parameters
documented, its body absent; it stores the four values given. -/
def SpatialState.create (type name reference_frame : String) (empty : Bool) : SpatialState :=
  { type := type, name := name, empty := empty, reference_frame := reference_frame }

/-- The same constructor called with the default arguments of its declaration,
`reference_frame = "world"` and `empty = true`. -/
def SpatialState.create_default (type name : String) : SpatialState :=
  SpatialState.create type name "world" true

/-! ## The exception taxonomy -/

/-- The exceptions thrown by the state operations. `EmptyStateException` is the
class of `Exceptions/EmptyStateException.hpp`, a `std::runtime_error` built
from a message; the other kinds are those the specification names. -/
inductive Exception where
  | EmptyStateException (msg : String)
  | IncompatibleStatesException (msg : String)
  | DimensionMismatchException (msg : String)
  | DivisionByZeroException (msg : String)
deriving DecidableEq, Repr

/-- Whether a computation ended by throwing an `EmptyStateException`. -/
def is_EmptyStateException {α : Type} : Except Exception α → Bool
  | .error (.EmptyStateException _) => true
  | _ => false

/-! ## The joint-space family -/

/-- Modelled from the spec: the header `Joint/JointState.hpp` is absent. A
JointState is a State with an ordered list of joint names and four parallel
numeric vectors (positions, velocities, accelerations, torques). -/
structure JointState extends State where
  joint_names : List String
  positions : List ℚ
  velocities : List ℚ
  accelerations : List ℚ
  torques : List ℚ
deriving DecidableEq

/-- Modelled from the spec: the invariant of the absent `JointState`, "all four
vectors always have length n", with n the number of joint names, which are
unique. -/
def JointState.WellFormed (s : JointState) : Prop :=
  s.joint_names.Nodup ∧
  s.positions.length = s.joint_names.length ∧
  s.velocities.length = s.joint_names.length ∧
  s.accelerations.length = s.joint_names.length ∧
  s.torques.length = s.joint_names.length

instance (s : JointState) : Decidable s.WellFormed := by
  unfold JointState.WellFormed
  infer_instance

/-- Modelled from the spec: the compatibility check of the absent `JointState`
between the two operands of a binary operation, on the joint-name sequences
(hence on the length, the order mattering). -/
def JointState.is_compatible (self state : JointState) : Bool :=
  self.joint_names == state.joint_names

/-- Modelled from the spec: the header `Joint/JointPositions.hpp` is absent;
the view of a JointState whose relevant vector is `positions`. -/
structure JointPositions extends JointState
deriving DecidableEq

/-- The class `JointVelocities : public JointState` of
`Joint/JointVelocities.hpp`; it adds no member. -/
structure JointVelocities extends JointState
deriving DecidableEq

/-- The message of the `EmptyStateException` thrown for a state. -/
def empty_message (s : State) : String := s.get_name ++ " state is empty"

/-- A duration in milliseconds converted to seconds, as a scalar. -/
def to_seconds (dt : Int) : ℚ := (dt : ℚ) / 1000

/-- The unit time of one second, in milliseconds. -/
def unit_time : Int := 1000

/-- Modelled from the spec: construction variant (d) of the absent
`JointPositions`, "named + joint-name list + explicit value vector"; a vector
whose length disagrees with the number of joint names fails with
DimensionMismatchException; the other vectors are zero-initialized. -/
def JointPositions.create (robot_name : String) (joint_names : List String)
    (positions : List ℚ) : Except Exception JointPositions :=
  if positions.length ≠ joint_names.length then
    .error (.DimensionMismatchException "positions and joint names differ in length")
  else
    .ok { type := "JointState", name := robot_name, empty := false,
          joint_names := joint_names, positions := positions,
          velocities := List.replicate joint_names.length 0,
          accelerations := List.replicate joint_names.length 0,
          torques := List.replicate joint_names.length 0 }

/-- Modelled from the spec: `JointVelocities(robot_name, joint_names,
velocities)`, declared in the header, its body absent; construction variant
(d), as for the positions. -/
def JointVelocities.create (robot_name : String) (joint_names : List String)
    (velocities : List ℚ) : Except Exception JointVelocities :=
  if velocities.length ≠ joint_names.length then
    .error (.DimensionMismatchException "velocities and joint names differ in length")
  else
    .ok { type := "JointState", name := robot_name, empty := false,
          joint_names := joint_names, velocities := velocities,
          positions := List.replicate joint_names.length 0,
          accelerations := List.replicate joint_names.length 0,
          torques := List.replicate joint_names.length 0 }

/-- Modelled from the spec: `JointVelocities(const JointPositions&)`, declared
in the header ("equivalent to dividing the positions by 1 second"), its body
absent: a copy of the state whose velocity slot receives the positions divided
by the unit time; the other three vectors are copied. -/
def JointVelocities.of_positions (positions : JointPositions) : JointVelocities :=
  { toJointState :=
      { positions.toJointState with
        velocities := positions.positions.map (fun x => x / to_seconds unit_time) } }

/-- Modelled from the spec: the setter of the velocities of the absent
`JointState`; the vector must have the declared length, and the state is no
longer empty once a value is assigned. -/
def JointVelocities.set_velocities (self : JointVelocities) (velocities : List ℚ) :
    Except Exception JointVelocities :=
  if velocities.length ≠ self.joint_names.length then
    .error (.DimensionMismatchException "velocities and joint names differ in length")
  else
    .ok { self with velocities := velocities, empty := false }

/-- Modelled from the spec: `JointVelocities::copy`, declared in the header,
its body absent; a deep value copy. -/
def JointVelocities.copy (self : JointVelocities) : JointVelocities := self

/-- Modelled from the spec: `JointVelocities::array`, declared in the header,
its body absent; the velocity vector, after the check of the empty flag. -/
def JointVelocities.array (self : JointVelocities) : Except Exception (List ℚ) :=
  if self.empty then .error (.EmptyStateException (empty_message self.toState))
  else .ok self.velocities

/-- Modelled from the spec: `operator+=(const Eigen::VectorXd&)`, declared in
the header, its body absent; element-wise addition of a raw vector, in place. -/
def JointVelocities.operator_add_assign_vector (self : JointVelocities) (vector : List ℚ) :
    Except Exception JointVelocities :=
  if self.empty then .error (.EmptyStateException (empty_message self.toState))
  else if vector.length ≠ self.joint_names.length then
    .error (.DimensionMismatchException "vector and joint names differ in length")
  else self.set_velocities (List.zipWith (fun a b => a + b) self.velocities vector)

/-- Modelled from the spec: `operator+=(const JointVelocities&)`, declared in
the header, its body absent; both operands are checked for emptiness, then for
compatibility, then the velocities are added element-wise, in place. -/
def JointVelocities.operator_add_assign (self velocities : JointVelocities) :
    Except Exception JointVelocities :=
  if self.empty then .error (.EmptyStateException (empty_message self.toState))
  else if velocities.empty then
    .error (.EmptyStateException (empty_message velocities.toState))
  else if !(self.toJointState.is_compatible velocities.toJointState) then
    .error (.IncompatibleStatesException "the two joint states are incompatible")
  else
    self.set_velocities
      (List.zipWith (fun a b => a + b) self.velocities velocities.velocities)

/-- Modelled from the spec: `operator+(const Eigen::VectorXd&) const`, declared
in the header, its body absent; the sum as a new value. -/
def JointVelocities.operator_add_vector (self : JointVelocities) (vector : List ℚ) :
    Except Exception JointVelocities :=
  self.copy.operator_add_assign_vector vector

/-- Modelled from the spec: `operator+(const JointVelocities&) const`, declared
in the header, its body absent; the sum as a new value. -/
def JointVelocities.operator_add (self velocities : JointVelocities) :
    Except Exception JointVelocities :=
  self.copy.operator_add_assign velocities

/-- Modelled from the spec: `operator-=(const Eigen::VectorXd&)`, declared in
the header, its body absent; element-wise subtraction of a raw vector, in
place. -/
def JointVelocities.operator_sub_assign_vector (self : JointVelocities) (vector : List ℚ) :
    Except Exception JointVelocities :=
  if self.empty then .error (.EmptyStateException (empty_message self.toState))
  else if vector.length ≠ self.joint_names.length then
    .error (.DimensionMismatchException "vector and joint names differ in length")
  else self.set_velocities (List.zipWith (fun a b => a - b) self.velocities vector)

/-- Modelled from the spec: `operator-=(const JointVelocities&)`, declared in
the header, its body absent; as `+=`, with element-wise subtraction. -/
def JointVelocities.operator_sub_assign (self velocities : JointVelocities) :
    Except Exception JointVelocities :=
  if self.empty then .error (.EmptyStateException (empty_message self.toState))
  else if velocities.empty then
    .error (.EmptyStateException (empty_message velocities.toState))
  else if !(self.toJointState.is_compatible velocities.toJointState) then
    .error (.IncompatibleStatesException "the two joint states are incompatible")
  else
    self.set_velocities
      (List.zipWith (fun a b => a - b) self.velocities velocities.velocities)

/-- Modelled from the spec: `operator-(const Eigen::VectorXd&) const`, declared
in the header, its body absent; the difference as a new value. -/
def JointVelocities.operator_sub_vector (self : JointVelocities) (vector : List ℚ) :
    Except Exception JointVelocities :=
  self.copy.operator_sub_assign_vector vector

/-- Modelled from the spec: `operator-(const JointVelocities&) const`, declared
in the header, its body absent; the difference as a new value. -/
def JointVelocities.operator_sub (self velocities : JointVelocities) :
    Except Exception JointVelocities :=
  self.copy.operator_sub_assign velocities

/-- Modelled from the spec: the friend `operator+(const Eigen::VectorXd&,
const JointVelocities&)`, declared in the header, its body absent; the sum
with the operands in the other order. -/
def JointVelocities.vector_operator_add (vector : List ℚ) (velocities : JointVelocities) :
    Except Exception JointVelocities :=
  velocities.operator_add_vector vector

/-- Modelled from the spec: the friend `operator-(const Eigen::VectorXd&,
const JointVelocities&)`, declared in the header, its body absent; the vector
minus the velocities, as a JointVelocities. -/
def JointVelocities.vector_operator_sub (vector : List ℚ) (velocities : JointVelocities) :
    Except Exception JointVelocities :=
  if velocities.empty then
    .error (.EmptyStateException (empty_message velocities.toState))
  else if vector.length ≠ velocities.joint_names.length then
    .error (.DimensionMismatchException "vector and joint names differ in length")
  else
    velocities.copy.set_velocities
      (List.zipWith (fun a b => a - b) vector velocities.velocities)

/-- Modelled from the spec: the friend `operator*(double, const
JointVelocities&)`, declared in the header, its body absent; element-wise
scale by a scalar. -/
def JointVelocities.operator_mul_scalar (lambda : ℚ) (velocities : JointVelocities) :
    Except Exception JointVelocities :=
  if velocities.empty then
    .error (.EmptyStateException (empty_message velocities.toState))
  else
    velocities.copy.set_velocities (velocities.velocities.map (fun x => lambda * x))

/-- Modelled from the spec: the friend `operator*(const Eigen::ArrayXd&, const
JointVelocities&)`, declared in the header, its body absent; the element-wise
product with a vector of gains of the same length. -/
def JointVelocities.operator_mul_array (lambda : List ℚ) (velocities : JointVelocities) :
    Except Exception JointVelocities :=
  if velocities.empty then
    .error (.EmptyStateException (empty_message velocities.toState))
  else if lambda.length ≠ velocities.joint_names.length then
    .error (.DimensionMismatchException "gains and joint names differ in length")
  else
    velocities.copy.set_velocities
      (List.zipWith (fun g x => g * x) lambda velocities.velocities)

/-- Modelled from the spec: the friend `operator*(const
std::chrono::milliseconds&, const JointVelocities&)`, declared in the header,
its body absent; the displacement over the period: JointPositions of the same
robot and joints whose positions are the velocities multiplied by the period
in seconds. -/
def JointVelocities.duration_operator_mul (dt : Int) (velocities : JointVelocities) :
    Except Exception JointPositions :=
  if velocities.empty then
    .error (.EmptyStateException (empty_message velocities.toState))
  else
    let period := to_seconds dt
    JointPositions.create velocities.get_name velocities.joint_names
      (velocities.velocities.map (fun x => period * x))

/-- Modelled from the spec: the friend `operator*(const JointVelocities&, const
std::chrono::milliseconds&)`, declared in the header, its body absent; the
same displacement, with the operands in the other order. -/
def JointVelocities.operator_mul_duration (velocities : JointVelocities) (dt : Int) :
    Except Exception JointPositions :=
  JointVelocities.duration_operator_mul dt velocities

/-- Modelled from the spec: the friend `operator/(const JointVelocities&,
double)`, declared in the header, its body absent; element-wise division by a
scalar, a zero divisor being a defined failure. -/
def JointVelocities.operator_div_scalar (velocities : JointVelocities) (lambda : ℚ) :
    Except Exception JointVelocities :=
  if velocities.empty then
    .error (.EmptyStateException (empty_message velocities.toState))
  else if lambda = 0 then
    .error (.DivisionByZeroException "division by a zero scalar")
  else
    velocities.copy.set_velocities (velocities.velocities.map (fun x => x / lambda))

/-- Modelled from the spec: the friend `operator/(const JointVelocities&, const
Eigen::ArrayXd&)`, declared in the header, its body absent; element-wise
division by a vector of gains of the same length, a zero gain being a defined
failure. -/
def JointVelocities.operator_div_array (velocities : JointVelocities) (lambda : List ℚ) :
    Except Exception JointVelocities :=
  if velocities.empty then
    .error (.EmptyStateException (empty_message velocities.toState))
  else if lambda.length ≠ velocities.joint_names.length then
    .error (.DimensionMismatchException "gains and joint names differ in length")
  else if lambda.any (fun g => g == 0) then
    .error (.DivisionByZeroException "division by a zero gain")
  else
    velocities.copy.set_velocities
      (List.zipWith (fun x g => x / g) velocities.velocities lambda)

/-- The two objects a binary operator of JointVelocities is called on: the
receiver `*this` and the argument. -/
structure Operands where
  self : JointVelocities
  velocities : JointVelocities
deriving DecidableEq

/-- Modelled from the spec: a call of the binary `operator+`, on the objects in
memory: "all binary operators return a new value"; the outcome is the
operands after the call and the value returned. -/
def Operands.call_operator_add (o : Operands) : Except Exception (Operands × JointVelocities) :=
  match o.self.operator_add o.velocities with
  | .error e => .error e
  | .ok result => .ok (o, result)

/-- Modelled from the spec: a call of the binary `operator-`, on the objects in
memory; the outcome is the operands after the call and the value returned. -/
def Operands.call_operator_sub (o : Operands) : Except Exception (Operands × JointVelocities) :=
  match o.self.operator_sub o.velocities with
  | .error e => .error e
  | .ok result => .ok (o, result)

/-- Modelled from the spec: a call of the compound `operator+=`, on the objects
in memory: it mutates the receiver in place and returns a handle to it. -/
def Operands.call_operator_add_assign (o : Operands) :
    Except Exception (Operands × JointVelocities) :=
  match o.self.operator_add_assign o.velocities with
  | .error e => .error e
  | .ok result => .ok ({ o with self := result }, result)

/-- Modelled from the spec: a call of the compound `operator-=`, on the objects
in memory: it mutates the receiver in place and returns a handle to it. -/
def Operands.call_operator_sub_assign (o : Operands) :
    Except Exception (Operands × JointVelocities) :=
  match o.self.operator_sub_assign o.velocities with
  | .error e => .error e
  | .ok result => .ok ({ o with self := result }, result)

/-- Modelled from the spec: `JointVelocities(robot_name, joint_names)`,
declared in the header, its body absent; construction variant (c), "named +
explicit joint-name list": the vectors are zero-initialized and the state is
still empty. -/
def JointVelocities.create_named (robot_name : String) (joint_names : List String) :
    JointVelocities :=
  { type := "JointState", name := robot_name, empty := true,
    joint_names := joint_names,
    positions := List.replicate joint_names.length 0,
    velocities := List.replicate joint_names.length 0,
    accelerations := List.replicate joint_names.length 0,
    torques := List.replicate joint_names.length 0 }

/-! ### Values of the scenarios -/

/-- The positions `[1.0, 2.0]` of the robot on the joints `j0`, `j1`. -/
def scenario_positions : JointPositions :=
  { type := "JointState", name := "robot", empty := false,
    joint_names := ["j0", "j1"], positions := [1, 2],
    velocities := [0, 0], accelerations := [0, 0], torques := [0, 0] }

/-- The velocities `[1.0, 2.0]` of the robot on the joints `j0`, `j1`. -/
def scenario_velocities : JointVelocities :=
  { type := "JointState", name := "robot", empty := false,
    joint_names := ["j0", "j1"], velocities := [1, 2],
    positions := [0, 0], accelerations := [0, 0], torques := [0, 0] }

/-- The velocities `[3.0, -1.0]` of another robot on the same joints. -/
def scenario_velocities_other : JointVelocities :=
  { type := "JointState", name := "other_robot", empty := false,
    joint_names := ["j0", "j1"], velocities := [3, -1],
    positions := [5, 5], accelerations := [0, 0], torques := [0, 0] }

/-- The velocities of the robot on the joints `j0`, `j1`, no value assigned. -/
def scenario_empty : JointVelocities :=
  JointVelocities.create_named "robot" ["j0", "j1"]

end StateRepresentation

namespace modulo_components

/-! ## LifecycleComponent::add_output -/

/-- A thrown object of a class derived from `std::exception`, seen through its
`what()` message: what `catch (const std::exception& ex)` receives. -/
structure StdException where
  what : String
deriving DecidableEq, Repr

/-- The part of a `LifecycleComponent` that `add_output` acts on: the state of
the `ComponentInterface` base that `create_output` works on (of an arbitrary
type `S`), the record of the calls made to `create_output` (parsed signal
name, data pointer, fixed-topic flag, in order) and the messages sent to the
logger by `RCLCPP_ERROR_STREAM`. -/
structure LifecycleComponent (S D : Type) where
  interface : S
  create_output_calls : List (String × D × Bool)
  error_log : List String

/-- The message `add_output` streams to the logger for a caught exception. -/
def failed_to_add_output (signal_name : String) (ex : StdException) : String :=
  "Failed to add output '" ++ signal_name ++ "': " ++ ex.what

/-- An object thrown by a C++ function: an object of a class derived from
`std::exception`, which the handler `catch (const std::exception& ex)` of
`add_output` matches, or an object of any other type (an `int`, a string
literal, a class outside that hierarchy), here seen through a rendering of it,
which that handler does not match. -/
inductive Thrown where
  | std_exception (ex : StdException)
  | other (object : String)
deriving DecidableEq, Repr

/-- `LifecycleComponent::add_output`. The two collaborators are absent from
the sources and are parameters: `utilities::parse_signal_name`, which returns
the parsed name or throws, and `ComponentInterface::create_output`, which acts
on the state of the base class and returns or throws (the state it leaves
behind is kept in both cases). The result is the way the call ends, `.ok` when
`add_output` returns and `.error` with the object it lets out otherwise,
together with the component after the call. The `try` block runs the two
calls in order; the one handler, for `const std::exception&`, logs the error;
an object of another type leaves the function. -/
def LifecycleComponent.add_output {S D : Type}
    (parse_signal_name : String → Except Thrown String)
    (create_output : String → D → Bool → S → Except Thrown Unit × S)
    (self : LifecycleComponent S D) (signal_name : String) (data : D) (fixed_topic : Bool) :
    Except Thrown Unit × LifecycleComponent S D :=
  match parse_signal_name signal_name with
  | .error (.std_exception ex) =>
    (.ok (),
      { self with error_log := self.error_log ++ [failed_to_add_output signal_name ex] })
  | .error (.other object) => (.error (.other object), self)
  | .ok parsed_signal_name =>
    let called := create_output parsed_signal_name data fixed_topic self.interface
    let after : LifecycleComponent S D :=
      { self with
        interface := called.2
        create_output_calls :=
          self.create_output_calls ++ [(parsed_signal_name, data, fixed_topic)] }
    match called.1 with
    | .ok _ => (.ok (), after)
    | .error (.std_exception ex) =>
      (.ok (),
        { after with error_log := after.error_log ++ [failed_to_add_output signal_name ex] })
    | .error (.other object) => (.error (.other object), after)

/-! ### Collaborators and component of the scenarios -/

/-- A `parse_signal_name` that throws an object not derived from
`std::exception` (as `throw 42;` does). -/
def scenario_parse_throws_other : String → Except Thrown String :=
  fun _ => .error (.other "42")

/-- A `parse_signal_name` that returns the name it is given. -/
def scenario_parse_returns : String → Except Thrown String :=
  fun signal_name => .ok signal_name

/-- A `create_output` that throws an object not derived from `std::exception`
and leaves the state of the base class as it was. -/
def scenario_create_output_throws_other :
    String → Nat → Bool → Unit → Except Thrown Unit × Unit :=
  fun _ _ _ s => (.error (.other "42"), s)

/-- A `create_output` that returns and leaves the state of the base class as
it was. -/
def scenario_create_output_returns : String → Nat → Bool → Unit → Except Thrown Unit × Unit :=
  fun _ _ _ s => (.ok (), s)

/-- A component with no output created and nothing logged. -/
def scenario_component : LifecycleComponent Unit Nat :=
  { interface := (), create_output_calls := [], error_log := [] }

end modulo_components

namespace StateRepresentation

/-! ## Properties of SpatialState -/

/-- C1: `a.is_compatible(b)` is true iff the names are equal and the reference
frames are equal; so it is false for equal names with different frames and
true when both are equal. -/
theorem is_compatible_iff (a b : SpatialState) :
    (a.is_compatible b = true ↔ a.name = b.name ∧ a.reference_frame = b.reference_frame) ∧
    (a.name = b.name → a.reference_frame ≠ b.reference_frame → a.is_compatible b = false) ∧
    (a.name = b.name → a.reference_frame = b.reference_frame → a.is_compatible b = true) := by
  refine ⟨?_, ?_, ?_⟩
  · simp [SpatialState.is_compatible, State.get_name]
  · intro hn hf
    simp [SpatialState.is_compatible, State.get_name, hn, hf]
  · intro hn hf
    simp [SpatialState.is_compatible, State.get_name, hn, hf]

/-- C2: `is_compatible` is symmetric. -/
theorem is_compatible_symm (a b : SpatialState) :
    a.is_compatible b = b.is_compatible a := by
  simp only [SpatialState.is_compatible, State.get_name]
  rw [Bool.eq_iff_iff]
  simp only [Bool.and_eq_true, beq_iff_eq]
  constructor <;> rintro ⟨h1, h2⟩ <;> exact ⟨h1.symm, h2.symm⟩

/-- Compatibility composes: it is the equality of the pair (name, reference
frame). -/
theorem is_compatible_chain {a b c : SpatialState}
    (hab : a.is_compatible b = true) (hbc : b.is_compatible c = true) :
    a.is_compatible c = true := by
  simp only [SpatialState.is_compatible, State.get_name, Bool.and_eq_true, beq_iff_eq] at *
  exact ⟨hab.1.trans hbc.1, hab.2.trans hbc.2⟩

/-- C3, as the code has it: `is_compatible` is transitive on SpatialStates,
whatever their owners: if `a.is_compatible(b)` and `b.is_compatible(c)` are
true then `a.is_compatible(c)` is true. -/
theorem is_compatible_trans (a b c : SpatialState)
    (hab : a.is_compatible b = true) (hbc : b.is_compatible c = true) :
    a.is_compatible c = true :=
  is_compatible_chain hab hbc

/-- C3, witness: three states of the robot in the world frame, of different
types and empty flags. -/
theorem is_compatible_trans_witness :
    (SpatialState.mk ⟨"CartesianState", "robot", true⟩ "world").is_compatible
        (SpatialState.mk ⟨"JointState", "robot", false⟩ "world") = true ∧
    (SpatialState.mk ⟨"JointState", "robot", false⟩ "world").is_compatible
        (SpatialState.mk ⟨"DualQuaternionState", "robot", true⟩ "world") = true ∧
    (SpatialState.mk ⟨"CartesianState", "robot", true⟩ "world").is_compatible
        (SpatialState.mk ⟨"DualQuaternionState", "robot", true⟩ "world") = true :=
  ⟨by decide, by decide,
    is_compatible_trans
      (SpatialState.mk ⟨"CartesianState", "robot", true⟩ "world")
      (SpatialState.mk ⟨"JointState", "robot", false⟩ "world")
      (SpatialState.mk ⟨"DualQuaternionState", "robot", true⟩ "world")
      (by decide) (by decide)⟩

/-- C3, as the claim states it, fails: no three SpatialStates `a`, `b`, `c`
have `a.is_compatible(b)` and `b.is_compatible(c)` true and
`a.is_compatible(c)` false. -/
theorem is_compatible_not_intransitive :
    ¬ ∃ a b c : SpatialState,
      a.is_compatible b = true ∧ b.is_compatible c = true ∧ a.is_compatible c = false := by
  rintro ⟨a, b, c, hab, hbc, hac⟩
  rw [is_compatible_chain hab hbc] at hac
  exact Bool.noConfusion hac

/-- C4: after `set_reference_frame(r)` the getter returns `r`, and the name,
the type, the empty flag and the payload of the object are what they were. -/
theorem set_reference_frame_relabels {P : Type} (o : SpatialObject P) (r : String) :
    (o.set_reference_frame r).spatial.get_reference_frame = r ∧
    (o.set_reference_frame r).spatial.get_name = o.spatial.get_name ∧
    (o.set_reference_frame r).spatial.get_type = o.spatial.get_type ∧
    (o.set_reference_frame r).spatial.is_empty = o.spatial.is_empty ∧
    (o.set_reference_frame r).spatial.toState = o.spatial.toState ∧
    (o.set_reference_frame r).payload = o.payload :=
  ⟨rfl, rfl, rfl, rfl, rfl, rfl⟩

/-- C11: the result of `is_compatible` depends only on the two names and the
two reference frames: two pairs of states that agree on them, whatever their
type tags and empty flags, get the same result, which is a returned boolean,
and it is `true` whenever the name and the frame of the two states match. -/
theorem is_compatible_ignores_type_and_empty (a b a2 b2 : SpatialState)
    (ha_name : a2.get_name = a.get_name)
    (ha_frame : a2.get_reference_frame = a.get_reference_frame)
    (hb_name : b2.get_name = b.get_name)
    (hb_frame : b2.get_reference_frame = b.get_reference_frame) :
    a2.is_compatible b2 = a.is_compatible b ∧
    (a.get_name = b.get_name → a.get_reference_frame = b.get_reference_frame →
      a2.is_compatible b2 = true) ∧
    (∀ (t1 t2 : String) (e1 e2 : Bool),
      (SpatialState.create t1 a.get_name a.get_reference_frame e1).is_compatible
          (SpatialState.create t2 b.get_name b.get_reference_frame e2) =
        a.is_compatible b) := by
  simp only [State.get_name, SpatialState.get_reference_frame] at *
  refine ⟨?_, ?_, ?_⟩
  · simp only [SpatialState.is_compatible, State.get_name, ha_name, ha_frame, hb_name,
      hb_frame]
  · intro hn hf
    simp [SpatialState.is_compatible, State.get_name, ha_name, ha_frame, hb_name,
      hb_frame, hn, hf]
  · intro t1 t2 e1 e2
    rfl

/-- C11, witness: an empty Cartesian state and a non-empty joint state of the
robot in the world frame are reported compatible, as two non-empty Cartesian
states of the robot in the world frame are. -/
theorem is_compatible_ignores_type_and_empty_witness :
    (SpatialState.create_default "CartesianState" "robot").is_empty = true ∧
    (SpatialState.create_default "CartesianState" "robot").is_compatible
        (SpatialState.create "JointState" "robot" "world" false) =
      (SpatialState.create "CartesianState" "robot" "world" false).is_compatible
        (SpatialState.create "CartesianState" "robot" "world" false) ∧
    (SpatialState.create_default "CartesianState" "robot").is_compatible
        (SpatialState.create "JointState" "robot" "world" false) = true :=
  ⟨rfl,
    (is_compatible_ignores_type_and_empty
      (SpatialState.create "CartesianState" "robot" "world" false)
      (SpatialState.create "CartesianState" "robot" "world" false)
      (SpatialState.create_default "CartesianState" "robot")
      (SpatialState.create "JointState" "robot" "world" false)
      rfl rfl rfl rfl).1,
    (is_compatible_ignores_type_and_empty
      (SpatialState.create "CartesianState" "robot" "world" false)
      (SpatialState.create "CartesianState" "robot" "world" false)
      (SpatialState.create_default "CartesianState" "robot")
      (SpatialState.create "JointState" "robot" "world" false)
      rfl rfl rfl rfl).2.1 rfl rfl⟩

/-! ## Properties of the joint-space family -/

/-- An operation that throws an `EmptyStateException` returns no value. -/
theorem not_ok_of_is_EmptyStateException {α : Type} {r : Except Exception α}
    (h : is_EmptyStateException r = true) (x : α) : r ≠ .ok x := by
  intro hr
  subst hr
  simp [is_EmptyStateException] at h

/-- C5: on a JointVelocities whose empty flag is true, as receiver or as
argument, each of `+=`, `+`, `-=`, `-` (with a vector or with velocities),
the scalar, array and duration `*`, the scalar and array `/` and `array()`
throws an EmptyStateException; in particular `array()` returns no vector. -/
theorem empty_state_operations_fail (v : JointVelocities) (h : v.empty = true)
    (w : JointVelocities) (vector : List ℚ) (lambda : ℚ) (dt : Int) :
    is_EmptyStateException (v.operator_add_assign_vector vector) = true ∧
    is_EmptyStateException (v.operator_add_assign w) = true ∧
    is_EmptyStateException (w.operator_add_assign v) = true ∧
    is_EmptyStateException (v.operator_add_vector vector) = true ∧
    is_EmptyStateException (JointVelocities.vector_operator_add vector v) = true ∧
    is_EmptyStateException (v.operator_add w) = true ∧
    is_EmptyStateException (w.operator_add v) = true ∧
    is_EmptyStateException (v.operator_sub_assign_vector vector) = true ∧
    is_EmptyStateException (v.operator_sub_assign w) = true ∧
    is_EmptyStateException (w.operator_sub_assign v) = true ∧
    is_EmptyStateException (v.operator_sub_vector vector) = true ∧
    is_EmptyStateException (JointVelocities.vector_operator_sub vector v) = true ∧
    is_EmptyStateException (v.operator_sub w) = true ∧
    is_EmptyStateException (w.operator_sub v) = true ∧
    is_EmptyStateException (JointVelocities.operator_mul_scalar lambda v) = true ∧
    is_EmptyStateException (JointVelocities.operator_mul_array vector v) = true ∧
    is_EmptyStateException (JointVelocities.duration_operator_mul dt v) = true ∧
    is_EmptyStateException (v.operator_mul_duration dt) = true ∧
    is_EmptyStateException (v.operator_div_scalar lambda) = true ∧
    is_EmptyStateException (v.operator_div_array vector) = true ∧
    is_EmptyStateException v.array = true ∧
    (∀ values : List ℚ, v.array ≠ .ok values) := by
  have harr : is_EmptyStateException v.array = true := by
    simp [JointVelocities.array, h, is_EmptyStateException]
  refine ⟨?_, ?_, ?_, ?_, ?_, ?_, ?_, ?_, ?_, ?_, ?_, ?_, ?_, ?_, ?_, ?_, ?_, ?_, ?_, ?_,
    harr, not_ok_of_is_EmptyStateException harr⟩
  all_goals
    first
    | simp [JointVelocities.operator_add_assign_vector, JointVelocities.operator_add_assign,
        JointVelocities.operator_add_vector, JointVelocities.vector_operator_add,
        JointVelocities.operator_add, JointVelocities.operator_sub_assign_vector,
        JointVelocities.operator_sub_assign, JointVelocities.operator_sub_vector,
        JointVelocities.vector_operator_sub, JointVelocities.operator_sub,
        JointVelocities.operator_mul_scalar, JointVelocities.operator_mul_array,
        JointVelocities.duration_operator_mul, JointVelocities.operator_mul_duration,
        JointVelocities.operator_div_scalar, JointVelocities.operator_div_array,
        JointVelocities.copy, h, is_EmptyStateException]; done
    | cases hw : w.empty <;>
      simp [JointVelocities.operator_add_assign, JointVelocities.operator_add,
        JointVelocities.operator_sub_assign, JointVelocities.operator_sub,
        JointVelocities.copy, h, hw, is_EmptyStateException]

/-- C5, witness: the velocities of the robot built from the joint names
alone. -/
theorem empty_state_operations_fail_witness :
    scenario_empty.empty = true ∧
    is_EmptyStateException (scenario_empty.operator_add scenario_velocities) = true ∧
    is_EmptyStateException (scenario_velocities.operator_add scenario_empty) = true ∧
    is_EmptyStateException (scenario_empty.operator_mul_duration 500) = true ∧
    is_EmptyStateException scenario_empty.array = true := by
  obtain ⟨-, -, -, -, -, h6, h7, -, -, -, -, -, -, -, -, -, -, h18, -, -, h21, -⟩ :=
    empty_state_operations_fail scenario_empty rfl scenario_velocities [1, 2] 2 500
  exact ⟨rfl, h6, h7, h18, h21⟩

/-- C6: for non-empty positions `p`, `JointVelocities(p)` has the robot name
and the joint names of `p`, a velocity vector equal element by element to the
position vector of `p`, and is not empty. -/
theorem velocities_of_positions (p : JointPositions) (hp : p.empty = false) :
    (JointVelocities.of_positions p).get_name = p.get_name ∧
    (JointVelocities.of_positions p).joint_names = p.joint_names ∧
    (JointVelocities.of_positions p).velocities = p.positions ∧
    (∀ i : Nat, (JointVelocities.of_positions p).velocities[i]? = p.positions[i]?) ∧
    (JointVelocities.of_positions p).array = .ok p.positions := by
  have hv : (JointVelocities.of_positions p).velocities = p.positions := by
    simp [JointVelocities.of_positions, to_seconds, unit_time]
  have he : (JointVelocities.of_positions p).empty = false := hp
  refine ⟨rfl, rfl, hv, fun i => by rw [hv], ?_⟩
  simp [JointVelocities.array, he, hv]

/-- C6, witness: the positions `[1.0, 2.0]` on `j0`, `j1` give the velocities
`[1.0, 2.0]` on `j0`, `j1`. -/
theorem velocities_of_positions_witness :
    scenario_positions.empty = false ∧
    (JointVelocities.of_positions scenario_positions).joint_names = ["j0", "j1"] ∧
    (JointVelocities.of_positions scenario_positions).velocities = [1, 2] :=
  ⟨rfl, (velocities_of_positions scenario_positions rfl).2.1,
    (velocities_of_positions scenario_positions rfl).2.2.1⟩

/-- The displacement of non-empty, well-formed velocities over a period: the
value both orders of the duration `*` return. -/
theorem duration_operator_mul_eq (v : JointVelocities) (dt : Int)
    (hne : v.empty = false) (hlen : v.velocities.length = v.joint_names.length) :
    JointVelocities.duration_operator_mul dt v =
      .ok { type := "JointState", name := v.name, empty := false,
            joint_names := v.joint_names,
            positions := v.velocities.map (fun x => to_seconds dt * x),
            velocities := List.replicate v.joint_names.length 0,
            accelerations := List.replicate v.joint_names.length 0,
            torques := List.replicate v.joint_names.length 0 } := by
  simp [JointVelocities.duration_operator_mul, JointPositions.create, hne, hlen,
    State.get_name]

/-- C7: for non-empty velocities `v` and a duration `dt` in milliseconds,
`v * dt` and `dt * v` return the same JointPositions, of the robot and the
joints of `v`, whose i-th position is the i-th velocity multiplied by
`dt / 1000`. -/
theorem velocities_mul_duration (v : JointVelocities) (dt : Int)
    (hne : v.empty = false) (hwf : v.WellFormed) :
    ∃ p : JointPositions,
      v.operator_mul_duration dt = .ok p ∧
      JointVelocities.duration_operator_mul dt v = .ok p ∧
      p.get_name = v.get_name ∧
      p.joint_names = v.joint_names ∧
      p.positions = v.velocities.map (fun x => x * ((dt : ℚ) / 1000)) ∧
      p.positions.length = v.velocities.length ∧
      (∀ i : Nat, p.positions[i]? = (v.velocities[i]?).map (fun x => x * ((dt : ℚ) / 1000))) := by
  have h := duration_operator_mul_eq v dt hne hwf.2.2.1
  have hpos : v.velocities.map (fun x => to_seconds dt * x) =
      v.velocities.map (fun x => x * ((dt : ℚ) / 1000)) := by
    apply List.map_congr_left
    intro x _
    simp only [to_seconds]
    ring
  refine ⟨_, h, h, rfl, rfl, hpos, ?_, ?_⟩
  · simp
  · intro i
    simp only [hpos, List.getElem?_map]

/-- C7, witness: the velocities `[1.0, 2.0]` times 500 ms give the positions
`[0.5, 1.0]`, in both orders. -/
theorem velocities_mul_duration_witness :
    scenario_velocities.empty = false ∧ scenario_velocities.WellFormed ∧
    ∃ p : JointPositions,
      scenario_velocities.operator_mul_duration 500 = .ok p ∧
      JointVelocities.duration_operator_mul 500 scenario_velocities = .ok p ∧
      p.joint_names = ["j0", "j1"] ∧
      p.positions = [1 / 2, 1] := by
  obtain ⟨p, h1, h2, -, h4, h5, -, -⟩ :=
    velocities_mul_duration scenario_velocities 500 rfl (by decide)
  refine ⟨rfl, by decide, p, h1, h2, h4, ?_⟩
  rw [h5]
  norm_num [scenario_velocities]

/-- The velocities built from non-empty, well-formed positions, multiplied by
a duration: the positions scaled by the duration in seconds. -/
theorem of_positions_mul_duration_eq (p : JointPositions) (dt : Int)
    (hp : p.empty = false) (hwf : p.WellFormed) :
    ∃ q : JointPositions,
      (JointVelocities.of_positions p).operator_mul_duration dt = .ok q ∧
      q.joint_names = p.joint_names ∧
      q.positions = p.positions.map (fun x => x * ((dt : ℚ) / 1000)) := by
  have hv : (JointVelocities.of_positions p).velocities = p.positions := by
    simp [JointVelocities.of_positions, to_seconds, unit_time]
  have hlen : (JointVelocities.of_positions p).velocities.length =
      (JointVelocities.of_positions p).joint_names.length := by
    rw [hv]
    exact hwf.2.1
  have h := duration_operator_mul_eq (JointVelocities.of_positions p) dt hp hlen
  refine ⟨_, h, rfl, ?_⟩
  simp only [hv]
  apply List.map_congr_left
  intro x _
  simp only [to_seconds]
  ring

/-- C8, as the code has it: for non-empty positions `p` and a duration `dt` in
milliseconds, `JointVelocities(p) * dt` returns JointPositions whose i-th
position is the i-th position of `p` multiplied by `dt / 1000`; they are the
positions of `p` when `dt` is one second. -/
theorem velocities_of_positions_mul_duration (p : JointPositions) (dt : Int)
    (hp : p.empty = false) (hwf : p.WellFormed) :
    ∃ q : JointPositions,
      (JointVelocities.of_positions p).operator_mul_duration dt = .ok q ∧
      q.positions = p.positions.map (fun x => x * ((dt : ℚ) / 1000)) ∧
      (dt = 1000 → q.positions = p.positions) := by
  obtain ⟨q, hq, -, hpos⟩ := of_positions_mul_duration_eq p dt hp hwf
  refine ⟨q, hq, hpos, ?_⟩
  intro hdt
  rw [hpos, hdt]
  simp

/-- C8, witness: the positions `[1.0, 2.0]` and a duration of one second. -/
theorem velocities_of_positions_mul_duration_witness :
    scenario_positions.empty = false ∧ scenario_positions.WellFormed ∧
    ∃ q : JointPositions,
      (JointVelocities.of_positions scenario_positions).operator_mul_duration 1000 = .ok q ∧
      q.positions = [1, 2] := by
  obtain ⟨q, hq, -, h1000⟩ :=
    velocities_of_positions_mul_duration scenario_positions 1000 rfl (by decide)
  exact ⟨rfl, by decide, q, hq, h1000 rfl⟩

/-- C8, as the claim states it, fails: the velocities built from the positions
`[1.0, 2.0]`, multiplied by 500 ms, give the positions `[0.5, 1.0]`, not
`[1.0, 2.0]`. -/
theorem velocities_of_positions_mul_duration_not_identity :
    scenario_positions.empty = false ∧ scenario_positions.WellFormed ∧ (0 : Int) < 500 ∧
    ∃ q : JointPositions,
      (JointVelocities.of_positions scenario_positions).operator_mul_duration 500 = .ok q ∧
      q.positions = [1 / 2, 1] ∧
      q.positions ≠ scenario_positions.positions := by
  obtain ⟨q, hq, -, hpos⟩ :=
    of_positions_mul_duration_eq scenario_positions 500 rfl (by decide)
  have hval : q.positions = [1 / 2, 1] := by
    rw [hpos]
    norm_num [scenario_positions]
  refine ⟨rfl, by decide, by decide, q, hq, hval, ?_⟩
  rw [hval]
  norm_num [scenario_positions]

/-- Element-wise addition of two vectors does not depend on their order. -/
theorem zipWith_add_comm (a b : List ℚ) :
    List.zipWith (fun x y => x + y) a b = List.zipWith (fun x y => x + y) b a := by
  induction a generalizing b with
  | nil => cases b <;> rfl
  | cons x xs ih =>
    cases b with
    | nil => rfl
    | cons y ys => simp [List.zipWith, add_comm x y, ih ys]

/-- Subtracting element-wise what was added element-wise gives the vector
back, for vectors of the same length. -/
theorem zipWith_sub_add_cancel (a b : List ℚ) (h : a.length = b.length) :
    List.zipWith (fun x y => x - y) (List.zipWith (fun x y => x + y) a b) b = a := by
  induction a generalizing b with
  | nil => cases b <;> rfl
  | cons x xs ih =>
    cases b with
    | nil => simp at h
    | cons y ys =>
      simp only [List.length_cons, Nat.succ.injEq, add_left_inj] at h
      simp [List.zipWith, ih ys h]

/-- The value `+` returns on non-empty velocities over the same joints, the
velocity vectors having the declared length. -/
theorem operator_add_eq (v w : JointVelocities)
    (hv : v.empty = false) (hw : w.empty = false) (hn : v.joint_names = w.joint_names)
    (hlv : v.velocities.length = v.joint_names.length)
    (hlw : w.velocities.length = w.joint_names.length) :
    v.operator_add w =
      .ok { v with
            velocities := List.zipWith (fun x y => x + y) v.velocities w.velocities,
            empty := false } := by
  have hlen : (List.zipWith (fun x y => x + y) v.velocities w.velocities).length =
      v.joint_names.length := by
    rw [List.length_zipWith, hlv, hlw, hn, Nat.min_self]
  simp [JointVelocities.operator_add, JointVelocities.copy,
    JointVelocities.operator_add_assign, JointVelocities.set_velocities,
    JointState.is_compatible, hv, hw, hn, hlen]

/-- The value `-` returns on non-empty velocities over the same joints, the
velocity vectors having the declared length. -/
theorem operator_sub_eq (v w : JointVelocities)
    (hv : v.empty = false) (hw : w.empty = false) (hn : v.joint_names = w.joint_names)
    (hlv : v.velocities.length = v.joint_names.length)
    (hlw : w.velocities.length = w.joint_names.length) :
    v.operator_sub w =
      .ok { v with
            velocities := List.zipWith (fun x y => x - y) v.velocities w.velocities,
            empty := false } := by
  have hlen : (List.zipWith (fun x y => x - y) v.velocities w.velocities).length =
      v.joint_names.length := by
    rw [List.length_zipWith, hlv, hlw, hn, Nat.min_self]
  simp [JointVelocities.operator_sub, JointVelocities.copy,
    JointVelocities.operator_sub_assign, JointVelocities.set_velocities,
    JointState.is_compatible, hv, hw, hn, hlen]

/-- C9: for non-empty velocities `v1`, `v2` over the same joint names,
`v1 + v2` and `v2 + v1` succeed with the same joint names and the same
velocity values, `(v1 + v2) - v2` is `v1`, and the operands of `+` and of `-`
are after the call what they were before. -/
theorem velocities_add_comm_sub_cancel (v1 v2 : JointVelocities)
    (h1 : v1.empty = false) (h2 : v2.empty = false)
    (hw1 : v1.WellFormed) (hw2 : v2.WellFormed)
    (hn : v1.joint_names = v2.joint_names) :
    ∃ s12 s21 : JointVelocities,
      Operands.call_operator_add ⟨v1, v2⟩ = .ok (⟨v1, v2⟩, s12) ∧
      Operands.call_operator_add ⟨v2, v1⟩ = .ok (⟨v2, v1⟩, s21) ∧
      s12.joint_names = s21.joint_names ∧
      s12.velocities = s21.velocities ∧
      s12.array = s21.array ∧
      Operands.call_operator_sub ⟨s12, v2⟩ = .ok (⟨s12, v2⟩, v1) := by
  have hl1 := hw1.2.2.1
  have hl2 := hw2.2.2.1
  have e12 := operator_add_eq v1 v2 h1 h2 hn hl1 hl2
  have e21 := operator_add_eq v2 v1 h2 h1 hn.symm hl2 hl1
  have hlen : v1.velocities.length = v2.velocities.length := by rw [hl1, hl2, hn]
  have hl12 : (List.zipWith (fun x y => x + y) v1.velocities v2.velocities).length =
      v1.joint_names.length := by
    rw [List.length_zipWith, hl1, hl2, hn, Nat.min_self]
  have esub := operator_sub_eq
    { v1 with
      velocities := List.zipWith (fun x y => x + y) v1.velocities v2.velocities,
      empty := false } v2 rfl h2 hn hl12 hl2
  refine ⟨{ v1 with
            velocities := List.zipWith (fun x y => x + y) v1.velocities v2.velocities,
            empty := false },
          { v2 with
            velocities := List.zipWith (fun x y => x + y) v2.velocities v1.velocities,
            empty := false }, ?_, ?_, hn, zipWith_add_comm _ _, ?_, ?_⟩
  · simp only [Operands.call_operator_add, e12]
  · simp only [Operands.call_operator_add, e21]
  · simp [JointVelocities.array, zipWith_add_comm v1.velocities v2.velocities]
  · simp only [Operands.call_operator_sub, esub]
    obtain ⟨⟨⟨t, n, e⟩, jn, ps, vs, acs, ts⟩⟩ := v1
    simp only at h1 hlen
    subst h1
    simp [zipWith_sub_add_cancel vs v2.velocities hlen]

/-- C9, witness: the velocities `[1.0, 2.0]` of the robot and `[3.0, -1.0]` of
another robot, on the joints `j0`, `j1`. -/
theorem velocities_add_comm_sub_cancel_witness :
    scenario_velocities.empty = false ∧ scenario_velocities_other.empty = false ∧
    scenario_velocities.WellFormed ∧ scenario_velocities_other.WellFormed ∧
    scenario_velocities.joint_names = scenario_velocities_other.joint_names ∧
    ∃ s12 s21 : JointVelocities,
      Operands.call_operator_add ⟨scenario_velocities, scenario_velocities_other⟩ =
        .ok (⟨scenario_velocities, scenario_velocities_other⟩, s12) ∧
      Operands.call_operator_add ⟨scenario_velocities_other, scenario_velocities⟩ =
        .ok (⟨scenario_velocities_other, scenario_velocities⟩, s21) ∧
      s12.velocities = s21.velocities ∧
      Operands.call_operator_sub ⟨s12, scenario_velocities_other⟩ =
        .ok (⟨s12, scenario_velocities_other⟩, scenario_velocities) := by
  obtain ⟨s12, s21, ha, hb, -, hv, -, hs⟩ :=
    velocities_add_comm_sub_cancel scenario_velocities scenario_velocities_other
      rfl rfl (by decide) (by decide) rfl
  exact ⟨rfl, rfl, by decide, by decide, rfl, s12, s21, ha, hb, hv, hs⟩

end StateRepresentation

namespace modulo_components

/-! ## Properties of LifecycleComponent::add_output -/

/-- C10, as the code has it: when `parse_signal_name` succeeds, `create_output`
is called exactly once, with the parsed name, the data and the flag; when
`parse_signal_name` throws, `create_output` is not called; when either of the
two throws an object derived from `std::exception`, `add_output` logs the error
and returns; when both return, it returns and logs nothing; an object of
another type thrown by either of the two leaves `add_output`, nothing being
logged. -/
theorem add_output_catches_std_exception {S D : Type}
    (parse_signal_name : String → Except Thrown String)
    (create_output : String → D → Bool → S → Except Thrown Unit × S)
    (self : LifecycleComponent S D) (signal_name : String) (data : D) (fixed_topic : Bool) :
    (∀ parsed, parse_signal_name signal_name = .ok parsed →
      (self.add_output parse_signal_name create_output signal_name data
          fixed_topic).2.create_output_calls =
        self.create_output_calls ++ [(parsed, data, fixed_topic)] ∧
      (self.add_output parse_signal_name create_output signal_name data
          fixed_topic).2.interface =
        (create_output parsed data fixed_topic self.interface).2) ∧
    (∀ thrown, parse_signal_name signal_name = .error thrown →
      (self.add_output parse_signal_name create_output signal_name data
          fixed_topic).2.create_output_calls = self.create_output_calls ∧
      (self.add_output parse_signal_name create_output signal_name data
          fixed_topic).2.interface = self.interface) ∧
    (∀ ex, parse_signal_name signal_name = .error (.std_exception ex) →
      self.add_output parse_signal_name create_output signal_name data fixed_topic =
        (.ok (),
          { self with
            error_log := self.error_log ++ [failed_to_add_output signal_name ex] })) ∧
    (∀ parsed ex, parse_signal_name signal_name = .ok parsed →
      (create_output parsed data fixed_topic self.interface).1 =
        .error (.std_exception ex) →
      (self.add_output parse_signal_name create_output signal_name data
          fixed_topic).1 = .ok () ∧
      (self.add_output parse_signal_name create_output signal_name data
          fixed_topic).2.error_log =
        self.error_log ++ [failed_to_add_output signal_name ex]) ∧
    (∀ parsed u, parse_signal_name signal_name = .ok parsed →
      (create_output parsed data fixed_topic self.interface).1 = .ok u →
      (self.add_output parse_signal_name create_output signal_name data
          fixed_topic).1 = .ok () ∧
      (self.add_output parse_signal_name create_output signal_name data
          fixed_topic).2.error_log = self.error_log) ∧
    (∀ object, parse_signal_name signal_name = .error (.other object) →
      self.add_output parse_signal_name create_output signal_name data fixed_topic =
        (.error (.other object), self)) ∧
    (∀ parsed object, parse_signal_name signal_name = .ok parsed →
      (create_output parsed data fixed_topic self.interface).1 = .error (.other object) →
      (self.add_output parse_signal_name create_output signal_name data
          fixed_topic).1 = .error (.other object) ∧
      (self.add_output parse_signal_name create_output signal_name data
          fixed_topic).2.error_log = self.error_log) := by
  unfold LifecycleComponent.add_output
  refine ⟨?_, ?_, ?_, ?_, ?_, ?_, ?_⟩
  · intro parsed hp
    simp only [hp]
    rcases hc : (create_output parsed data fixed_topic self.interface).1 with t | u
    · cases t <;> exact ⟨rfl, rfl⟩
    · exact ⟨rfl, rfl⟩
  · intro thrown hp
    simp only [hp]
    cases thrown <;> exact ⟨rfl, rfl⟩
  · intro ex hp
    simp only [hp]
  · intro parsed ex hp hc
    simp only [hp, hc]
    exact ⟨trivial, trivial⟩
  · intro parsed u hp hc
    simp only [hp, hc]
    exact ⟨trivial, trivial⟩
  · intro object hp
    simp only [hp]
  · intro parsed object hp hc
    simp only [hp, hc]
    exact ⟨trivial, trivial⟩

/-- C10, as the claim states it, fails: when `parse_signal_name` throws an
object that is not a `std::exception`, and when `create_output` does,
`add_output` lets the object out and logs nothing. -/
theorem add_output_propagates_other :
    (scenario_component.add_output scenario_parse_throws_other
        scenario_create_output_returns "signal" 0 false).1 = .error (.other "42") ∧
    (scenario_component.add_output scenario_parse_throws_other
        scenario_create_output_returns "signal" 0 false).2.error_log = [] ∧
    (scenario_component.add_output scenario_parse_returns
        scenario_create_output_throws_other "signal" 0 false).1 = .error (.other "42") ∧
    (scenario_component.add_output scenario_parse_returns
        scenario_create_output_throws_other "signal" 0 false).2.error_log = [] ∧
    (scenario_component.add_output scenario_parse_returns
        scenario_create_output_throws_other "signal" 0 false).2.create_output_calls =
      [("signal", 0, false)] :=
  ⟨rfl, rfl, rfl, rfl, rfl⟩

end modulo_components
